import Mathlib

/-!
Verification development for a two-player Tic-Tac-Toe server
(`server.py`).  The mutable Python objects are embedded as immutable
Lean structures with explicit state passing: every method that mutates
`self` becomes a function returning the updated state (and, where the
claims need it, the list of outbound messages).  Python's 3×3 board of
strings (with `''` as the empty cell) is a `List (List String)`;
Python's `set` of rematch-requesting uuids is a `Finset String`.
-/

namespace TTT

/-- A board is a list of rows of cells; a cell holds a player's symbol
string, with `""` for empty (Python uses `''`, which is falsy). -/
abbrev Board := List (List String)

/-- The initial board, `[['' for _ in range(3)] for _ in range(3)]`. -/
def emptyBoard : Board := [["", "", ""], ["", "", ""], ["", "", ""]]

/-- Reading `self.board[r][c]` (defaulting out-of-range access to `""`; the
server only indexes after its own bounds check, so the default is never
reached on the paths modelled here). -/
def cellAt (b : Board) (r c : Nat) : String := (b.getD r []).getD c ""

/-- Writing `self.board[r][c] = s`, as a functional update. -/
def setCell (b : Board) (r c : Nat) (s : String) : Board :=
  b.set r ((b.getD r []).set c s)

/-- The board shape invariant: 3 rows of 3 cells each. -/
def WFBoard (b : Board) : Prop := b.length = 3 ∧ ∀ row ∈ b, row.length = 3

instance : DecidablePred WFBoard := fun b => by
  unfold WFBoard; infer_instance

/-- The fields of the per-client dictionary that the game logic reads:
`socket` (modelled by its fileno), `username`, `uuid`, `symbol`. -/
structure Player where
  socket : Nat
  username : String
  uuid : String
  symbol : String
  deriving DecidableEq, Repr

/-- Fallback for `self.players[i]` when `i` is out of range (Python
would raise; the invariant `current_player_index < len(players)` keeps
this unreachable, and theorems that need it carry that hypothesis). -/
def defaultPlayer : Player := ⟨0, "", "", ""⟩

/-- The `self.winner` field: `None`, a player dictionary, or the string `'draw'`. -/
inductive Winner where
  | none
  | player (p : Player)
  | draw
  deriving DecidableEq, Repr

/-- The mutable state of a `Game` instance (the `server` back
reference, lock and timer handle carry no game state and are not
modelled; the 30-second rematch timer is real-time behaviour outside
this embedding). -/
structure Game where
  game_id : String
  board : Board
  players : List Player
  current_player_index : Nat
  winner : Winner
  new_game_requests : Finset String
  deriving DecidableEq

/-- Constructor `Game.__init__`. -/
def Game.init (gid : String) : Game :=
  { game_id := gid
    board := emptyBoard
    players := []
    current_player_index := 0
    winner := Winner.none
    new_game_requests := ∅ }

/-- Method `Game.add_player`. -/
def add_player (g : Game) (p : Player) : Game :=
  { g with players := g.players ++ [p] }

/-- Method `Game.current_player_info()`: `self.players[self.current_player_index]`. -/
def current_player_info (g : Game) : Player :=
  g.players.getD g.current_player_index defaultPlayer

/-- Method `Game.check_winner(symbol)`: rows (`self.board.copy()`), columns
(`zip(*self.board)`, written out for the 3×3 board), and the two
diagonals; true iff some line is all `symbol`. -/
def check_winner (g : Board) (symbol : String) : Bool :=
  let lines : List (List String) :=
    g ++
    [[cellAt g 0 0, cellAt g 1 0, cellAt g 2 0],
     [cellAt g 0 1, cellAt g 1 1, cellAt g 2 1],
     [cellAt g 0 2, cellAt g 1 2, cellAt g 2 2]] ++
    [[cellAt g 0 0, cellAt g 1 1, cellAt g 2 2],
     [cellAt g 0 2, cellAt g 1 1, cellAt g 2 0]]
  lines.any (fun line => line.all (fun c => c == symbol))

/-- Method `Game.is_draw()`: every cell truthy (non-empty). -/
def is_draw (b : Board) : Bool :=
  b.all (fun row => row.all (fun c => c != ""))

/-- Result dictionary of `Game.make_move`: `{'status': 'success'}` or
`{'status': 'failure', 'code': ..., 'message': ...}`. -/
inductive MoveResult where
  | success
  | failure (code : String) (message : String)
  deriving DecidableEq, Repr

/-- Method `Game.make_move(player_uuid, position)`; positions arrive from the
wire as integers, hence `Int × Int`.  Returns the result dictionary and
the (possibly) updated game state. -/
def make_move (g : Game) (player_uuid : String) (position : Int × Int) :
    MoveResult × Game :=
  if g.winner ≠ Winner.none then
    (MoveResult.failure "game_over" "The game has already ended.", g)
  else
    match g.players.find? (fun p => p.uuid == player_uuid) with
    | Option.none =>
        (MoveResult.failure "invalid_player" "Player not found in the game.", g)
    | Option.some player =>
        if (current_player_info g).uuid ≠ player_uuid then
          (MoveResult.failure "not_your_turn" "It is not your turn.", g)
        else
          let row := position.1
          let col := position.2
          if ¬ (0 ≤ row ∧ row ≤ 2 ∧ 0 ≤ col ∧ col ≤ 2) then
            (MoveResult.failure "invalid_position" "Position out of bounds.", g)
          else if cellAt g.board row.toNat col.toNat ≠ "" then
            (MoveResult.failure "invalid_move" "Position already occupied.", g)
          else
            let board' := setCell g.board row.toNat col.toNat player.symbol
            if check_winner board' player.symbol then
              (MoveResult.success, { g with board := board', winner := Winner.player player })
            else if is_draw board' then
              (MoveResult.success, { g with board := board', winner := Winner.draw })
            else
              (MoveResult.success,
               { g with board := board',
                        current_player_index :=
                          (g.current_player_index + 1) % g.players.length })

/-- The state part of `Game.reset_game` (the broadcast of the
`new_game` notification carries no game state). -/
def reset_game (g : Game) : Game :=
  { g with board := emptyBoard
           current_player_index := (g.current_player_index + 1) % g.players.length
           winner := Winner.none }

/-- Method `Game.handle_new_game_request(player_uuid)`: records the vote in
the set, and when every current player has a recorded vote, resets the
game and clears the set.  (The `threading.Timer` started on the else
branch fires after 30 real-time seconds and is outside this
state-transition embedding.)  Note: the uuid is added without any check
that it belongs to a player of this game. -/
def handle_new_game_request (g : Game) (player_uuid : String) : Game :=
  let g1 := { g with new_game_requests := insert player_uuid g.new_game_requests }
  if g1.new_game_requests.card = g1.players.length then
    { (reset_game g1) with new_game_requests := ∅ }
  else
    g1

/-- An outbound message, reduced to the parts the claims talk about:
which socket it goes to, the `type` tag, and the status / error-code
field of its payload. -/
structure Msg where
  recipient : Nat
  mtype : String
  info : String
  deriving DecidableEq, Repr

/-- The server fields the session logic touches: the `games` registry
(`game_id -> Game`, as an association list) and the single waiting
client slot. -/
structure ServerState where
  games : List (String × Game)
  waiting_client : Option Player
  deriving DecidableEq

/-- Lookup `self.games.get(game_id)`. -/
def lookupGame (games : List (String × Game)) (gid : String) : Option Game :=
  (games.find? (fun e => e.1 == gid)).map (fun e => e.2)

/-- Python mutates the `Game` object in place; functionally, the
registry entry for `gid` is replaced by the updated game. -/
def updateGame (games : List (String × Game)) (gid : String) (g : Game) :
    List (String × Game) :=
  games.map (fun e => if e.1 == gid then (gid, g) else e)

/-- Method `Server.assign_to_game(client_info)` (the `uuid.uuid4()` session id
is passed in as a parameter; the `self.clients[...]['game_id']`
back-references are client-registry bookkeeping with no effect on the
session logic).  If someone is waiting, the waiting client gets `'X'`,
the newcomer `'O'`, a fresh two-player game is registered and both get
a success `join_ack`; otherwise the newcomer becomes the waiting client
and gets a waiting `join_ack`. -/
def assign_to_game (s : ServerState) (game_id : String) (client_info : Player) :
    ServerState × List Msg :=
  match s.waiting_client with
  | Option.some waiting =>
      let w := { waiting with symbol := "X" }
      let c := { client_info with symbol := "O" }
      let new_game := add_player (add_player (Game.init game_id) w) c
      ({ games := s.games ++ [(game_id, new_game)], waiting_client := Option.none },
       [⟨w.socket, "join_ack", "success"⟩, ⟨c.socket, "join_ack", "success"⟩])
  | Option.none =>
      ({ s with waiting_client := Option.some client_info },
       [⟨client_info.socket, "join_ack", "waiting"⟩])

/-- Method `Game.winner_username()`. -/
def winner_username (g : Game) : String :=
  match g.winner with
  | Winner.draw => "draw"
  | Winner.player p => p.username
  | Winner.none => ""

/-- Method `Server.handle_move` after its missing-field guard (absent
`game_id` / `position` / `uuid` are rejected at the transport layer and
never reach the game): looks the game up, applies the move, and either
broadcasts `move_ack` (plus `game_over` when the game ended) to every
player, or sends a single `error` carrying the failure code back to the
submitting socket only. -/
def handle_move (games : List (String × Game)) (client_socket : Nat)
    (gid : String) (player_uuid : String) (position : Int × Int) :
    List (String × Game) × List Msg :=
  match lookupGame games gid with
  | Option.none => (games, [⟨client_socket, "error", "invalid_game"⟩])
  | Option.some game =>
      let r := make_move game player_uuid position
      match r.1 with
      | MoveResult.success =>
          (updateGame games gid r.2,
           r.2.players.map (fun p => ⟨p.socket, "move_ack", "success"⟩) ++
           (if r.2.winner ≠ Winner.none then
              r.2.players.map (fun p => ⟨p.socket, "game_over", winner_username r.2⟩)
            else []))
      | MoveResult.failure code _ =>
          (updateGame games gid r.2, [⟨client_socket, "error", code⟩])

/-- The state reached after a successful or failed move (second
component of `make_move`). -/
def step (g : Game) (player_uuid : String) (position : Int × Int) : Game :=
  (make_move g player_uuid position).2

/-- Folding a whole sequence of (possibly invalid) move submissions
over a game state. -/
def runMoves (g : Game) : List (String × Int × Int) → Game
  | [] => g
  | m :: ms => runMoves (step g m.1 m.2) ms

/-- The specification's reading of win detection: some of the 3 rows,
3 columns, or 2 diagonals has all three cells equal to the mark. -/
def winningLineExists (b : Board) (m : String) : Prop :=
  (∃ r, r < 3 ∧ ∀ c, c < 3 → cellAt b r c = m) ∨
  (∃ c, c < 3 ∧ ∀ r, r < 3 → cellAt b r c = m) ∨
  (∀ i, i < 3 → cellAt b i i = m) ∨
  (∀ i, i < 3 → cellAt b i (2 - i) = m)

/-- Concrete two-player session used by witnesses and counterexamples:
the first player (symbol `X`) moves first. -/
def pX : Player := ⟨1, "Alice", "uX", "X"⟩

/-- Second player (symbol `O`) of the concrete session. -/
def pO : Player := ⟨2, "Bob", "uO", "O"⟩

/-- A freshly created two-player game. -/
def demoG0 : Game := add_player (add_player (Game.init "gid") pX) pO

/-- A finished round of `demoG0` in which `pO` — the participant who
did not start the round — wins on the sixth move (`O` completes the
middle row), so `current_player_index` is left at 1. -/
def demoEnd : Game :=
  step (step (step (step (step (step demoG0 "uX" (0, 0)) "uO" (1, 0)) "uX" (0, 1))
    "uO" (1, 1)) "uX" (2, 2)) "uO" (1, 2)

/-- The state of `demoEnd` after both players vote for a rematch. -/
def demoRematch : Game :=
  handle_new_game_request (handle_new_game_request demoEnd "uX") "uO"

section HelperLemmas

lemma exists_lt_three {P : Nat → Prop} : (∃ i, i < 3 ∧ P i) ↔ P 0 ∨ P 1 ∨ P 2 := by
  constructor
  · rintro ⟨i, hi, h⟩
    interval_cases i <;> tauto
  · rintro (h | h | h)
    · exact ⟨0, by omega, h⟩
    · exact ⟨1, by omega, h⟩
    · exact ⟨2, by omega, h⟩

lemma forall_lt_three {P : Nat → Prop} : (∀ i, i < 3 → P i) ↔ P 0 ∧ P 1 ∧ P 2 := by
  constructor
  · intro h
    exact ⟨h 0 (by omega), h 1 (by omega), h 2 (by omega)⟩
  · rintro ⟨h0, h1, h2⟩ i hi
    interval_cases i <;> assumption

lemma getD_set_self {α : Type} (l : List α) (i : Nat) (a d : α) (h : i < l.length) :
    (l.set i a).getD i d = a := by
  simp [List.getD, List.getElem?_set_self, h]

lemma getD_set_ne {α : Type} (l : List α) (i j : Nat) (a d : α) (h : i ≠ j) :
    (l.set i a).getD j d = l.getD j d := by
  simp [List.getD, List.getElem?_set_ne, h]

lemma cellAt_setCell_self (b : Board) (r c : Nat) (s : String)
    (hWF : WFBoard b) (hr : r < 3) (hc : c < 3) :
    cellAt (setCell b r c s) r c = s := by
  unfold cellAt setCell
  have hlen : r < b.length := by rw [hWF.1]; exact hr
  have hmem : b.getD r [] ∈ b := by
    rw [List.getD_eq_getElem b [] hlen]
    exact List.getElem_mem hlen
  have hrow : (b.getD r []).length = 3 := hWF.2 _ hmem
  rw [getD_set_self _ _ _ _ hlen, getD_set_self _ _ _ _ (by omega)]

lemma cellAt_setCell_ne (b : Board) (r c r' c' : Nat) (s : String)
    (h : ¬ (r' = r ∧ c' = c)) :
    cellAt (setCell b r c s) r' c' = cellAt b r' c' := by
  unfold cellAt setCell
  by_cases hr : r' = r
  · subst hr
    have hc : c' ≠ c := fun hcc => h ⟨rfl, hcc⟩
    by_cases hlen : r' < b.length
    · rw [getD_set_self _ _ _ _ hlen, getD_set_ne _ _ _ _ _ (fun hq => hc hq.symm)]
    · rw [List.set_eq_of_length_le (by omega)]
  · rw [getD_set_ne _ _ _ _ _ (fun hq => hr hq.symm)]

/-- On a successful move the acting player was found, it was that
player's turn, the position was in bounds and its cell empty, and the
resulting board is exactly the old board with that one cell set. -/
lemma make_move_success_shape (g : Game) (u : String) (pos : Int × Int)
    (hs : (make_move g u pos).1 = MoveResult.success) :
    ∃ p, g.players.find? (fun q => q.uuid == u) = Option.some p ∧
      (current_player_info g).uuid = u ∧
      (0 ≤ pos.1 ∧ pos.1 ≤ 2 ∧ 0 ≤ pos.2 ∧ pos.2 ≤ 2) ∧
      cellAt g.board pos.1.toNat pos.2.toNat = "" ∧
      (step g u pos).board = setCell g.board pos.1.toNat pos.2.toNat p.symbol ∧
      (step g u pos).players = g.players := by
  by_cases hw : g.winner = Winner.none
  case neg => simp [make_move, hw] at hs
  rcases hfind : g.players.find? (fun q => q.uuid == u) with _ | p
  · simp [make_move, hw, hfind] at hs
  by_cases hcur : (current_player_info g).uuid = u
  case neg => simp [make_move, hw, hfind, hcur] at hs
  by_cases hb : (0 ≤ pos.1 ∧ pos.1 ≤ 2 ∧ 0 ≤ pos.2 ∧ pos.2 ≤ 2)
  case neg => simp [make_move, hw, hfind, hcur, hb] at hs
  by_cases ho : cellAt g.board pos.1.toNat pos.2.toNat = ""
  case neg => simp [make_move, hw, hfind, hcur, hb, ho] at hs
  refine ⟨p, hfind, hcur, hb, ho, ?_, ?_⟩ <;>
  · by_cases hwin : check_winner (setCell g.board pos.1.toNat pos.2.toNat p.symbol) p.symbol <;>
      by_cases hdr : is_draw (setCell g.board pos.1.toNat pos.2.toNat p.symbol) <;>
      simp [step, make_move, hw, hfind, hcur, hb, ho, hwin, hdr]

/-- Every failing move leaves the game state untouched. -/
lemma make_move_not_success_eq (g : Game) (u : String) (pos : Int × Int)
    (hs : (make_move g u pos).1 ≠ MoveResult.success) :
    (make_move g u pos).2 = g := by
  by_cases hw : g.winner = Winner.none
  case neg => simp [make_move, hw]
  rcases hfind : g.players.find? (fun q => q.uuid == u) with _ | p
  · simp [make_move, hw, hfind]
  by_cases hcur : (current_player_info g).uuid = u
  case neg => simp [make_move, hw, hfind, hcur]
  by_cases hb : (0 ≤ pos.1 ∧ pos.1 ≤ 2 ∧ 0 ≤ pos.2 ∧ pos.2 ≤ 2)
  case neg => simp [make_move, hw, hfind, hcur, hb]
  by_cases ho : cellAt g.board pos.1.toNat pos.2.toNat = ""
  case neg => simp [make_move, hw, hfind, hcur, hb, ho]
  exfalso
  apply hs
  by_cases hwin : check_winner (setCell g.board pos.1.toNat pos.2.toNat p.symbol) p.symbol <;>
    by_cases hdr : is_draw (setCell g.board pos.1.toNat pos.2.toNat p.symbol) <;>
    simp [make_move, hw, hfind, hcur, hb, ho, hwin, hdr]

/-- A move, successful or not, never overwrites a non-empty cell. -/
lemma step_preserves_nonempty (g : Game) (u : String) (pos : Int × Int) (r c : Nat)
    (h : cellAt g.board r c ≠ "") :
    cellAt (step g u pos).board r c = cellAt g.board r c := by
  by_cases hs : (make_move g u pos).1 = MoveResult.success
  · obtain ⟨p, _, _, _, ho, hb, _⟩ := make_move_success_shape g u pos hs
    rw [hb]
    apply cellAt_setCell_ne
    rintro ⟨rfl, rfl⟩
    exact h ho
  · rw [show step g u pos = g from make_move_not_success_eq g u pos hs]

lemma runMoves_preserves_nonempty (g : Game) (ms : List (String × Int × Int)) (r c : Nat)
    (h : cellAt g.board r c ≠ "") :
    cellAt (runMoves g ms).board r c = cellAt g.board r c := by
  induction ms generalizing g with
  | nil => rfl
  | cons m ms ih =>
    rw [runMoves]
    rw [ih _ (by rw [step_preserves_nonempty g m.1 m.2 r c h]; exact h)]
    exact step_preserves_nonempty g m.1 m.2 r c h

/-- Replacing the registry entry for a present key keeps it present
with the new game. -/
lemma lookupGame_updateGame (games : List (String × Game)) (gid : String) (g g0 : Game)
    (h : lookupGame games gid = Option.some g0) :
    lookupGame (updateGame games gid g) gid = Option.some g := by
  induction games with
  | nil => simp [lookupGame] at h
  | cons e es ih =>
    by_cases he : e.1 = gid
    · have hbe : (e.1 == gid) = true := by simp [he]
      simp [lookupGame, updateGame, List.find?, hbe]
    · have hbe : (e.1 == gid) = false := by simp [he]
      have h2 : lookupGame es gid = Option.some g0 := by
        simpa only [lookupGame, List.find?, hbe] using h
      have h3 := ih h2
      simpa [lookupGame, updateGame, List.find?, hbe] using h3

end HelperLemmas

/-- C1: in an ongoing two-player session with distinct participants, a
successful `make_move` by the current player sets the winner when the
placed mark completes a line; otherwise declares a draw when the board
is full; otherwise keeps the game ongoing, advances the turn to
`(turnIndex + 1) % 2`, and an immediately following move by the same
participant fails with `not_your_turn` (the `check_winner` test comes
first, so a full board whose final move completes a line is a win,
never a draw). -/
theorem claim_C1 (p0 p1 : Player) (g : Game) (u : String) (row col : Int)
    (hps : g.players = [p0, p1])
    (hd : p0.uuid ≠ p1.uuid)
    (hi : g.current_player_index < 2)
    (hw : g.winner = Winner.none)
    (hs : (make_move g u (row, col)).1 = MoveResult.success) :
    (check_winner (step g u (row, col)).board (current_player_info g).symbol = true →
       (step g u (row, col)).winner = Winner.player (current_player_info g)) ∧
    (check_winner (step g u (row, col)).board (current_player_info g).symbol = false →
       is_draw (step g u (row, col)).board = true →
       (step g u (row, col)).winner = Winner.draw) ∧
    (check_winner (step g u (row, col)).board (current_player_info g).symbol = false →
       is_draw (step g u (row, col)).board = false →
       (step g u (row, col)).winner = Winner.none ∧
       (step g u (row, col)).current_player_index = (g.current_player_index + 1) % 2 ∧
       ∀ r2 c2 : Int,
         (make_move (step g u (row, col)) u (r2, c2)).1 =
           MoveResult.failure "not_your_turn" "It is not your turn.") := by
  obtain ⟨gid, board, players, idx, winner, reqs⟩ := g
  simp only at hps hi hw
  subst hps hw
  obtain hi0 | hi1 : idx = 0 ∨ idx = 1 := by omega
  all_goals subst_vars
  -- index 0: the current player is p0
  · by_cases hu : p0.uuid = u
    case neg =>
      have he0 : (p0.uuid == u) = false := by simp [hu]
      by_cases hu1 : p1.uuid = u
      · have he1 : (p1.uuid == u) = true := by simp [hu1]
        simp [make_move, current_player_info, List.find?, he0, he1, hu] at hs
      · have he1 : (p1.uuid == u) = false := by simp [hu1]
        simp [make_move, current_player_info, List.find?, he0, he1, hu] at hs
    have he0 : (p0.uuid == u) = true := by simp [hu]
    by_cases hb : (0 ≤ row ∧ row ≤ 2 ∧ 0 ≤ col ∧ col ≤ 2)
    case neg =>
      simp [make_move, current_player_info, List.find?, he0, hu, hb] at hs
    by_cases ho : cellAt board row.toNat col.toNat = ""
    case neg =>
      simp [make_move, current_player_info, List.find?, he0, hu, hb, ho] at hs
    by_cases hwin : check_winner (setCell board row.toNat col.toNat p0.symbol) p0.symbol
    · simp [step, make_move, current_player_info, List.find?, he0, hu, hb, ho, hwin]
    · by_cases hdr : is_draw (setCell board row.toNat col.toNat p0.symbol)
      · simp [step, make_move, current_player_info, List.find?, he0, hu, hb, ho, hwin, hdr]
      · have hne : p1.uuid ≠ u := fun hq => hd (hu.trans hq.symm)
        simp [step, make_move, current_player_info, List.find?, he0, hu, hb, ho, hwin, hdr, hne]
  -- index 1: the current player is p1
  · by_cases hu : p1.uuid = u
    case neg =>
      by_cases hu0 : p0.uuid = u
      · have he0 : (p0.uuid == u) = true := by simp [hu0]
        simp [make_move, current_player_info, List.find?, he0, hu] at hs
      · have he0 : (p0.uuid == u) = false := by simp [hu0]
        have he1 : (p1.uuid == u) = false := by simp [hu]
        simp [make_move, current_player_info, List.find?, he0, he1, hu] at hs
    have hne : p0.uuid ≠ u := fun hq => hd (hq.trans hu.symm)
    have he0 : (p0.uuid == u) = false := by simp [hne]
    have he1 : (p1.uuid == u) = true := by simp [hu]
    by_cases hb : (0 ≤ row ∧ row ≤ 2 ∧ 0 ≤ col ∧ col ≤ 2)
    case neg =>
      simp [make_move, current_player_info, List.find?, he0, he1, hu, hb] at hs
    by_cases ho : cellAt board row.toNat col.toNat = ""
    case neg =>
      simp [make_move, current_player_info, List.find?, he0, he1, hu, hb, ho] at hs
    by_cases hwin : check_winner (setCell board row.toNat col.toNat p1.symbol) p1.symbol
    · simp [step, make_move, current_player_info, List.find?, he0, he1, hu, hb, ho, hwin]
    · by_cases hdr : is_draw (setCell board row.toNat col.toNat p1.symbol)
      · simp [step, make_move, current_player_info, List.find?, he0, he1, hu, hb, ho, hwin, hdr]
      · simp [step, make_move, current_player_info, List.find?, he0, he1, hu, hb, ho, hwin, hdr, hne]

/-- Witness for C1: in the fresh demo session the first move does not
end the game, the turn advances to index 1, and a second move by the
same player is rejected as `not_your_turn`. -/
theorem claim_C1_witness :
    (step demoG0 "uX" (0, 0)).winner = Winner.none ∧
    (step demoG0 "uX" (0, 0)).current_player_index = (demoG0.current_player_index + 1) % 2 ∧
    (make_move (step demoG0 "uX" (0, 0)) "uX" (1, 1)).1 =
      MoveResult.failure "not_your_turn" "It is not your turn." := by
  have h := claim_C1 pX pO demoG0 "uX" 0 0 (by decide) (by decide) (by decide)
    (by decide) (by decide)
  obtain ⟨-, -, h3⟩ := h
  obtain ⟨a, b, c⟩ := h3 (by decide) (by decide)
  exact ⟨a, b, c 1 1⟩

/-- C2: the failure checks of `make_move` apply in a fixed precedence
order — `game_over`, then `invalid_player`, then `not_your_turn`, then
`invalid_position`, then `invalid_move` — each conjunct stating that
when all earlier checks pass and the next condition holds, that error
is returned (and the state is unchanged). -/
theorem claim_C2 (g : Game) (u : String) (row col : Int) :
    (g.winner ≠ Winner.none →
       make_move g u (row, col) =
         (MoveResult.failure "game_over" "The game has already ended.", g)) ∧
    (g.winner = Winner.none →
       g.players.find? (fun p => p.uuid == u) = Option.none →
       make_move g u (row, col) =
         (MoveResult.failure "invalid_player" "Player not found in the game.", g)) ∧
    (∀ p, g.winner = Winner.none →
       g.players.find? (fun q => q.uuid == u) = Option.some p →
       (current_player_info g).uuid ≠ u →
       make_move g u (row, col) =
         (MoveResult.failure "not_your_turn" "It is not your turn.", g)) ∧
    (∀ p, g.winner = Winner.none →
       g.players.find? (fun q => q.uuid == u) = Option.some p →
       (current_player_info g).uuid = u →
       ¬ (0 ≤ row ∧ row ≤ 2 ∧ 0 ≤ col ∧ col ≤ 2) →
       make_move g u (row, col) =
         (MoveResult.failure "invalid_position" "Position out of bounds.", g)) ∧
    (∀ p, g.winner = Winner.none →
       g.players.find? (fun q => q.uuid == u) = Option.some p →
       (current_player_info g).uuid = u →
       (0 ≤ row ∧ row ≤ 2 ∧ 0 ≤ col ∧ col ≤ 2) →
       cellAt g.board row.toNat col.toNat ≠ "" →
       make_move g u (row, col) =
         (MoveResult.failure "invalid_move" "Position already occupied.", g)) := by
  refine ⟨?_, ?_, ?_, ?_, ?_⟩
  · intro h
    simp [make_move, h]
  · intro h hf
    simp [make_move, h, hf]
  · intro p h hf hc
    simp [make_move, h, hf, hc]
  · intro p h hf hc hb
    simp [make_move, h, hf, hc, hb]
  · intro p h hf hc hb ho
    simp [make_move, h, hf, hc, hb, ho]

/-- Witness for C2: each of the five failure kinds observed on a
concrete session, in precedence position. -/
theorem claim_C2_witness :
    make_move demoEnd "uX" (0, 0) =
      (MoveResult.failure "game_over" "The game has already ended.", demoEnd) ∧
    make_move demoG0 "ghost" (0, 0) =
      (MoveResult.failure "invalid_player" "Player not found in the game.", demoG0) ∧
    make_move demoG0 "uO" (0, 0) =
      (MoveResult.failure "not_your_turn" "It is not your turn.", demoG0) ∧
    make_move demoG0 "uX" (3, 0) =
      (MoveResult.failure "invalid_position" "Position out of bounds.", demoG0) ∧
    make_move (step demoG0 "uX" (0, 0)) "uO" (0, 0) =
      (MoveResult.failure "invalid_move" "Position already occupied.",
       step demoG0 "uX" (0, 0)) :=
  ⟨(claim_C2 demoEnd "uX" 0 0).1 (by decide),
   (claim_C2 demoG0 "ghost" 0 0).2.1 (by decide) (by decide),
   (claim_C2 demoG0 "uO" 0 0).2.2.1 pO (by decide) (by decide) (by decide),
   (claim_C2 demoG0 "uX" 3 0).2.2.2.1 pX (by decide) (by decide) (by decide) (by decide),
   (claim_C2 (step demoG0 "uX" (0, 0)) "uO" 0 0).2.2.2.2 pO (by decide) (by decide)
     (by decide) (by decide) (by decide)⟩

/-- C3: on a well-formed 3×3 board, `check_winner` returns true exactly
when one of the 3 rows, 3 columns or 2 diagonals is entirely the given
mark; and whenever a successful move leaves the acting player's mark
with `check_winner` true on the new board, the session outcome is a win
for that player. -/
theorem claim_C3 (b : Board) (m : String) (hWF : WFBoard b) :
    (check_winner b m = true ↔ winningLineExists b m) ∧
    ∀ (g : Game) (u : String) (pos : Int × Int) (p : Player),
      g.players.find? (fun q => q.uuid == u) = Option.some p →
      (make_move g u pos).1 = MoveResult.success →
      check_winner (step g u pos).board p.symbol = true →
      (step g u pos).winner = Winner.player p := by
  constructor
  · obtain ⟨hlen, hrows⟩ := hWF
    obtain ⟨r0, r1, r2, rfl⟩ := List.length_eq_three.mp hlen
    obtain ⟨a, b0, c, rfl⟩ := List.length_eq_three.mp (hrows r0 (by simp))
    obtain ⟨d, e, f, rfl⟩ := List.length_eq_three.mp (hrows r1 (by simp))
    obtain ⟨x, y, z, rfl⟩ := List.length_eq_three.mp (hrows r2 (by simp))
    simp [check_winner, winningLineExists, exists_lt_three, forall_lt_three,
          cellAt, List.getD, or_assoc]
  · intro g u pos p hfind hs hwin
    by_cases hw : g.winner = Winner.none
    case neg => simp [make_move, hw] at hs
    by_cases hcur : (current_player_info g).uuid = u
    case neg => simp [make_move, hw, hfind, hcur] at hs
    by_cases hb : (0 ≤ pos.1 ∧ pos.1 ≤ 2 ∧ 0 ≤ pos.2 ∧ pos.2 ≤ 2)
    case neg => simp [make_move, hw, hfind, hcur, hb] at hs
    by_cases ho : cellAt g.board pos.1.toNat pos.2.toNat = ""
    case neg => simp [make_move, hw, hfind, hcur, hb, ho] at hs
    have hset : (step g u pos).board = setCell g.board pos.1.toNat pos.2.toNat p.symbol := by
      by_cases hwin2 : check_winner (setCell g.board pos.1.toNat pos.2.toNat p.symbol) p.symbol <;>
        by_cases hdr : is_draw (setCell g.board pos.1.toNat pos.2.toNat p.symbol) <;>
        simp [step, make_move, hw, hfind, hcur, hb, ho, hwin2, hdr]
    rw [hset] at hwin
    simp [step, make_move, hw, hfind, hcur, hb, ho, hwin]

/-- Witness for C3: the iff evaluated on the finished demo board, and a
concrete winning fifth move producing `Winner.player pX`. -/
theorem claim_C3_witness :
    (check_winner demoEnd.board "O" = true ↔ winningLineExists demoEnd.board "O") ∧
    (step (step (step (step (step demoG0 "uX" (0, 0)) "uO" (1, 0)) "uX" (0, 1))
        "uO" (1, 1)) "uX" (0, 2)).winner = Winner.player pX :=
  ⟨(claim_C3 demoEnd.board "O" (by decide)).1,
   (claim_C3 demoEnd.board "O" (by decide)).2
     (step (step (step (step demoG0 "uX" (0, 0)) "uO" (1, 0)) "uX" (0, 1)) "uO" (1, 1))
     "uX" (0, 2) pX (by decide) (by decide) (by decide)⟩

/-- C4: once the outcome is terminal, every `make_move` fails with
`game_over` and leaves the whole state (outcome included) unchanged;
and the single `winner` field can never be a win and a draw at once. -/
theorem claim_C4 (g : Game) (u : String) (pos : Int × Int) :
    (g.winner ≠ Winner.none →
       make_move g u pos =
         (MoveResult.failure "game_over" "The game has already ended.", g)) ∧
    ∀ p : Player, ¬ (g.winner = Winner.player p ∧ g.winner = Winner.draw) := by
  constructor
  · intro h
    simp [make_move, h]
  · rintro p ⟨h1, h2⟩
    rw [h1] at h2
    exact Winner.noConfusion h2

/-- Witness for C4: a move submitted to the finished demo game is
rejected with `game_over` and the state is returned unchanged. -/
theorem claim_C4_witness :
    make_move demoEnd "uO" (2, 2) =
      (MoveResult.failure "game_over" "The game has already ended.", demoEnd) :=
  (claim_C4 demoEnd "uO" (2, 2)).1 (by decide)

/-- C5: over any sequence of move submissions a non-empty cell never
changes; and a single successful move changes exactly the target cell,
from empty to the acting player's symbol, leaving the other cells as
they were. -/
theorem claim_C5 :
    (∀ (g : Game) (ms : List (String × Int × Int)) (r c : Nat),
        cellAt g.board r c ≠ "" →
        cellAt (runMoves g ms).board r c = cellAt g.board r c) ∧
    (∀ (g : Game) (u : String) (pos : Int × Int),
        WFBoard g.board → (make_move g u pos).1 = MoveResult.success →
        ∃ p, g.players.find? (fun q => q.uuid == u) = Option.some p ∧
          cellAt g.board pos.1.toNat pos.2.toNat = "" ∧
          cellAt (step g u pos).board pos.1.toNat pos.2.toNat = p.symbol ∧
          ∀ r c : Nat, r < 3 → c < 3 → ¬ (r = pos.1.toNat ∧ c = pos.2.toNat) →
            cellAt (step g u pos).board r c = cellAt g.board r c) := by
  refine ⟨fun g ms r c h => runMoves_preserves_nonempty g ms r c h, ?_⟩
  intro g u pos hWF hs
  obtain ⟨p, hfind, hcur, hb, ho, hset, hpl⟩ := make_move_success_shape g u pos hs
  refine ⟨p, hfind, ho, ?_, ?_⟩
  · rw [hset]
    exact cellAt_setCell_self _ _ _ _ hWF (by omega) (by omega)
  · intro r c hr hc hne
    rw [hset]
    exact cellAt_setCell_ne _ _ _ _ _ _ hne

/-- Witness for C5: the mark placed at (0,0) in the demo game survives
two further submissions, and the first move writes exactly (0,0). -/
theorem claim_C5_witness :
    cellAt (runMoves demoEnd [("uO", 2, 0), ("uX", 2, 1)]).board 0 0 =
      cellAt demoEnd.board 0 0 ∧
    ∃ p, demoG0.players.find? (fun q => q.uuid == "uX") = Option.some p ∧
      cellAt demoG0.board 0 0 = "" ∧
      cellAt (step demoG0 "uX" (0, 0)).board 0 0 = p.symbol ∧
      ∀ r c : Nat, r < 3 → c < 3 → ¬ (r = 0 ∧ c = 0) →
        cellAt (step demoG0 "uX" (0, 0)).board r c = cellAt demoG0.board r c :=
  ⟨claim_C5.1 demoEnd [("uO", 2, 0), ("uX", 2, 1)] 0 0 (by decide),
   claim_C5.2 demoG0 "uX" (0, 0) (by decide) (by decide)⟩

/-- Server state after one join into an empty server. -/
def afterJoin1 (a : Player) (g1 : String) : ServerState :=
  (assign_to_game ⟨[], Option.none⟩ g1 a).1

/-- Server state after two successive joins into an empty server. -/
def afterJoin2 (a b : Player) (g1 g2 : String) : ServerState :=
  (assign_to_game (afterJoin1 a g1) g2 b).1

/-- Server state after three successive joins into an empty server. -/
def afterJoin3 (a b c : Player) (g1 g2 g3 : String) : ServerState :=
  (assign_to_game (afterJoin2 a b g1 g2) g3 c).1

/-- C6: when someone is waiting, a join creates exactly one new session
whose member list is the waiting participant (mark `X`, and selected by
the initial turn index) followed by the joiner (mark `O`), and clears
the waiting slot; when nobody is waiting, the joiner is parked as the
waiting client and no session is created; hence two successive joins
yield one two-member session and a third join yields a new waiting
participant, never a third member. -/
theorem claim_C6 (s : ServerState) (gid : String) (c : Player) :
    (∀ w, s.waiting_client = Option.some w →
       (assign_to_game s gid c).1.games =
         s.games ++ [(gid, add_player (add_player (Game.init gid)
           { w with symbol := "X" }) { c with symbol := "O" })] ∧
       (assign_to_game s gid c).1.waiting_client = Option.none ∧
       (add_player (add_player (Game.init gid) { w with symbol := "X" })
           { c with symbol := "O" }).players =
         [{ w with symbol := "X" }, { c with symbol := "O" }] ∧
       ({ w with symbol := "X" } : Player).symbol ≠
         ({ c with symbol := "O" } : Player).symbol ∧
       current_player_info (add_player (add_player (Game.init gid)
           { w with symbol := "X" }) { c with symbol := "O" }) =
         { w with symbol := "X" }) ∧
    (s.waiting_client = Option.none →
       (assign_to_game s gid c).1 = { s with waiting_client := Option.some c }) ∧
    (∀ (a b c2 : Player) (g1 g2 g3 : String),
       (afterJoin2 a b g1 g2).games =
         [(g2, add_player (add_player (Game.init g2)
           { a with symbol := "X" }) { b with symbol := "O" })] ∧
       (afterJoin2 a b g1 g2).waiting_client = Option.none ∧
       (afterJoin3 a b c2 g1 g2 g3).games = (afterJoin2 a b g1 g2).games ∧
       (afterJoin3 a b c2 g1 g2 g3).waiting_client = Option.some c2) := by
  refine ⟨?_, ?_, ?_⟩
  · intro w hw
    refine ⟨?_, ?_, rfl, by simp, rfl⟩ <;> simp [assign_to_game, hw]
  · intro hw
    simp [assign_to_game, hw]
  · intro a b c2 g1 g2 g3
    refine ⟨rfl, rfl, rfl, rfl⟩

/-- Witness for C6: pairing a concrete waiting player with a joiner,
and the three-join scenario on concrete players. -/
theorem claim_C6_witness :
    (assign_to_game ⟨[], Option.some pX⟩ "g1" pO).1.waiting_client = Option.none ∧
    (afterJoin2 pX pO "g0" "g1").games =
      [("g1", add_player (add_player (Game.init "g1")
        { pX with symbol := "X" }) { pO with symbol := "O" })] ∧
    (afterJoin3 pX pO pX "g0" "g1" "g2").waiting_client = Option.some pX :=
  ⟨((claim_C6 ⟨[], Option.some pX⟩ "g1" pO).1 pX rfl).2.1,
   ((claim_C6 ⟨[], Option.some pX⟩ "g1" pO).2.2 pX pO pX "g0" "g1" "g2").1,
   ((claim_C6 ⟨[], Option.some pX⟩ "g1" pO).2.2 pX pO pX "g0" "g1" "g2").2.2.2⟩

/-- Counterexample for C7: in the demo round the starter has index 0,
the non-starting player `pO` wins (a way the round can end), and after
both rematch votes the reset session's starting index is again 0 — the
new starting participant equals, not differs from, the one who started
the previous round.  (The code toggles from the index at the end of the
round, i.e. from the last mover, not from the round's starter.) -/
theorem claim_C7_counterexample :
    demoG0.current_player_index = 0 ∧
    demoEnd.winner = Winner.player pO ∧
    demoRematch.board = emptyBoard ∧
    demoRematch.winner = Winner.none ∧
    demoRematch.new_game_requests = ∅ ∧
    demoRematch.current_player_index = 0 := by
  decide

/-- C7 (amended): once the recorded votes cover every current player,
the session is reset — board all-empty, outcome ongoing, vote set
cleared — and the turn index rotates to `(turnIndex + 1) mod player
count` from its value at the END of the round (the last mover), which
for a two-player session always differs from the last mover's index,
though not necessarily from the previous round's starter. -/
theorem claim_C7 (g : Game) (u : String)
    (h : (insert u g.new_game_requests).card = g.players.length) :
    handle_new_game_request g u =
      { g with board := emptyBoard,
               current_player_index := (g.current_player_index + 1) % g.players.length,
               winner := Winner.none,
               new_game_requests := ∅ } ∧
    (g.players.length = 2 → g.current_player_index < 2 →
       (g.current_player_index + 1) % g.players.length ≠ g.current_player_index) := by
  constructor
  · simp [handle_new_game_request, reset_game, h]
  · intro h2 hi
    rw [h2]
    omega

/-- Witness for C7: the second rematch vote on the finished demo game
completes the vote set and performs the reset. -/
theorem claim_C7_witness :
    handle_new_game_request (handle_new_game_request demoEnd "uX") "uO" =
      { handle_new_game_request demoEnd "uX" with
          board := emptyBoard,
          current_player_index :=
            ((handle_new_game_request demoEnd "uX").current_player_index + 1) %
              (handle_new_game_request demoEnd "uX").players.length,
          winner := Winner.none,
          new_game_requests := ∅ } ∧
    ((handle_new_game_request demoEnd "uX").current_player_index + 1) %
        (handle_new_game_request demoEnd "uX").players.length ≠
      (handle_new_game_request demoEnd "uX").current_player_index :=
  ⟨(claim_C7 (handle_new_game_request demoEnd "uX") "uO" (by decide)).1,
   (claim_C7 (handle_new_game_request demoEnd "uX") "uO" (by decide)).2
     (by decide) (by decide)⟩

/-- Counterexample for C8: `"ghost"` is not a member of the demo
session, yet its rematch request is recorded — the vote set changes to
`{"ghost"}` and the state is not left unchanged; no `UnknownParticipant`
failure exists on this path (the handler has no failure outcome at
all, nor does its caller check membership). -/
theorem claim_C8_counterexample :
    (∀ p ∈ demoG0.players, p.uuid ≠ "ghost") ∧
    handle_new_game_request demoG0 "ghost" ≠ demoG0 ∧
    (handle_new_game_request demoG0 "ghost").new_game_requests = {"ghost"} := by
  decide

/-- C8 (amended): `handle_new_game_request` performs no membership
check — a vote from a uuid that belongs to no player of the session is
recorded in the vote set exactly like a member's vote (and, below the
all-voted threshold, that recording is the only state change); no
error is produced. -/
theorem claim_C8 (g : Game) (u : String)
    (hmem : ∀ p ∈ g.players, p.uuid ≠ u)
    (hcard : (insert u g.new_game_requests).card ≠ g.players.length) :
    handle_new_game_request g u =
      { g with new_game_requests := insert u g.new_game_requests } := by
  simp [handle_new_game_request, hcard]

/-- Witness for C8: the ghost vote on the fresh demo game is recorded
as the only state change. -/
theorem claim_C8_witness :
    handle_new_game_request demoG0 "ghost" =
      { demoG0 with new_game_requests := insert "ghost" demoG0.new_game_requests } :=
  claim_C8 demoG0 "ghost" (by decide) (by decide)

/-- C9: when a submitted move fails, the registry still maps the
session id to the unchanged game state (board, turn index and outcome
exactly as before; the session is not terminated), and the only
outbound message is the error, sent to the submitting socket alone. -/
theorem claim_C9 (games : List (String × Game)) (sock : Nat) (gid u : String)
    (pos : Int × Int) (g : Game) (code msg : String)
    (hlook : lookupGame games gid = Option.some g)
    (hfail : (make_move g u pos).1 = MoveResult.failure code msg) :
    (handle_move games sock gid u pos).2 = [⟨sock, "error", code⟩] ∧
    lookupGame (handle_move games sock gid u pos).1 gid = Option.some g ∧
    ∀ m ∈ (handle_move games sock gid u pos).2, m.recipient = sock := by
  have hpres : (make_move g u pos).2 = g :=
    make_move_not_success_eq g u pos
      (by rw [hfail]; exact fun h => MoveResult.noConfusion h)
  refine ⟨?_, ?_, ?_⟩
  · simp [handle_move, hlook, hfail]
  · simp only [handle_move, hlook, hfail, hpres]
    exact lookupGame_updateGame games gid g g hlook
  · simp [handle_move, hlook, hfail]

/-- Witness for C9: an out-of-turn move on the registered demo game
produces exactly one error message, addressed to the submitter, and
the registry entry is unchanged. -/
theorem claim_C9_witness :
    (handle_move [("gid", demoG0)] 2 "gid" "uO" (0, 0)).2 =
      [⟨2, "error", "not_your_turn"⟩] ∧
    lookupGame (handle_move [("gid", demoG0)] 2 "gid" "uO" (0, 0)).1 "gid" =
      Option.some demoG0 ∧
    ∀ m ∈ (handle_move [("gid", demoG0)] 2 "gid" "uO" (0, 0)).2, m.recipient = 2 :=
  claim_C9 [("gid", demoG0)] 2 "gid" "uO" (0, 0) demoG0 "not_your_turn"
    "It is not your turn." (by decide) (by decide)

/-- C10: recording a rematch vote is idempotent in the uuid — below the
all-voted threshold the call changes only the vote set (so no reset
happens while the distinct-voter count differs from the player count),
and repeating the same uuid's vote leaves the state exactly as after
one call. -/
theorem claim_C10 (g : Game) (u : String)
    (h : (insert u g.new_game_requests).card ≠ g.players.length) :
    handle_new_game_request g u =
      { g with new_game_requests := insert u g.new_game_requests } ∧
    handle_new_game_request (handle_new_game_request g u) u =
      handle_new_game_request g u := by
  have h1 : handle_new_game_request g u =
      { g with new_game_requests := insert u g.new_game_requests } := by
    simp [handle_new_game_request, h]
  refine ⟨h1, ?_⟩
  rw [h1]
  simp [handle_new_game_request, Finset.insert_idem, h]

/-- Witness for C10: the first vote on the finished demo game changes
only the vote set, and voting again with the same uuid is a no-op. -/
theorem claim_C10_witness :
    handle_new_game_request demoEnd "uX" =
      { demoEnd with new_game_requests := insert "uX" demoEnd.new_game_requests } ∧
    handle_new_game_request (handle_new_game_request demoEnd "uX") "uX" =
      handle_new_game_request demoEnd "uX" :=
  claim_C10 demoEnd "uX" (by decide)

end TTT
